import Mathlib

/-!
# Verification of the Unity WebGL loader component (goduck-client)

Shallow embedding of `src/components/unity/unity-loader.tsx`:

* build-name detection and manifest/URL resolution (`loadUnity`, lines 138–256),
* the load-attempt state machine (script injection / runtime instantiation),
* the progress callback,
* the fullscreen / orientation controller (`checkOrientation`,
  `handleFullscreen`, the `isFullscreen` effect, and the render condition of
  the rotate-hint overlay).

JavaScript truthiness on optional string fields (`undefined` and `""` are
falsy) is modelled explicitly; `string | string[]` unions are modelled by
`StrOrArr`.
-/

namespace GoduckLoader

/-- `string | string[]` as it appears in the manifest's `codeUrl` field. -/
inductive StrOrArr where
  | str (s : String)
  | arr (l : List String)
deriving DecidableEq, Repr

/-- The optional build manifest (`UnityBuildConfig` in the source), fetched
from `{buildUrl}/{buildFolder}/Build.json`.  Every field is optional. -/
structure UnityBuildConfig where
  buildName : Option String := none
  dataUrl : Option String := none
  frameworkUrl : Option String := none
  codeUrl : Option StrOrArr := none
  wasmCodeUrl : Option String := none
  wasmFiles : Option (List String) := none
  streamingAssetsUrl : Option String := none
  companyName : Option String := none
  productName : Option String := none
  productVersion : Option String := none
  arguments : Option (List String) := none
deriving DecidableEq, Repr

/-- The fully resolved configuration handed to the runtime factory
(`UnityInstanceConfig` in the source). -/
structure UnityInstanceConfig where
  dataUrl : String
  frameworkUrl : String
  codeUrl : StrOrArr
  streamingAssetsUrl : String
  companyName : String
  productName : String
  productVersion : String
  arguments : List String
deriving DecidableEq, Repr

/-- JavaScript truthiness of an optional string: `undefined` and `""` are
falsy. -/
def jsTruthy : Option String → Bool
  | some s => s ≠ ""
  | none => false

/-- JavaScript `o?.field || d` for a string field: the field's value when
present and truthy, else the default `d`. -/
def jsOr (o : Option String) (d : String) : String :=
  match o with
  | some s => if s = "" then d else s
  | none => d

/-- JavaScript `s.split(sep)` on the character list: every separator starts
a new chunk, so leading, trailing and doubled separators produce empty
chunks, and the empty string splits to `[""]`. -/
def splitChars (sep : Char) : List Char → List (List Char)
  | [] => [[]]
  | x :: xs =>
    let r := splitChars sep xs
    if x = sep then [] :: r
    else
      match r with
      | [] => [[x]]
      | h :: t => (x :: h) :: t

/-- `s.split(sep)` of JavaScript. -/
def jsSplit (sep : Char) (s : String) : List String :=
  (splitChars sep s.data).map String.mk

/-- `buildUrl.split("/").filter(Boolean)` followed by taking the last
element (`urlParts[urlParts.length - 1]`), from lines 140–141. -/
def lastUrlSegment (buildUrl : String) : Option String :=
  ((jsSplit '/' buildUrl).filter (fun s => s ≠ "")).getLast?

/-- Build-name detection before the manifest is consulted (lines 138–141):
the explicit `buildName` prop when truthy, else the last non-empty path
segment of `buildUrl`, else `"GODUCK"`. -/
def detectBuildNamePre (explicit : Option String) (buildUrl : String) : String :=
  if jsTruthy explicit then explicit.getD ""
  else (lastUrlSegment buildUrl).getD "GODUCK"

/-- Full build-name detection including the manifest step (lines 138–155):
after the pre-manifest detection, a truthy `buildConfig.buildName`
unconditionally overwrites the detected name. -/
def detectBuildName (explicit : Option String) (buildUrl : String)
    (manifest : Option UnityBuildConfig) : String :=
  let pre := detectBuildNamePre explicit buildUrl
  match manifest with
  | none => pre
  | some c => if jsTruthy c.buildName then c.buildName.getD "" else pre

/-- `s.startsWith(pat)` of JavaScript. -/
def jsStartsWith (s pat : String) : Bool :=
  pat.data.isPrefixOf s.data

/-- The absolute-vs-relative resolution rule used for the code/wasm fields
(lines 204–207 etc.): a value starting with `"http"` or `"/"` passes through
unchanged, anything else is joined to the build path. -/
def resolveFile (buildPath file : String) : String :=
  if jsStartsWith file "http" || jsStartsWith file "/" then file
  else buildPath ++ "/" ++ file

/-- The initial assignment `buildConfig?.codeUrl || fallback`
(lines 195–197).  In JavaScript an array is always truthy and a string is
truthy iff non-empty. -/
def codeUrlInit (buildPath detected : String)
    (manifest : Option UnityBuildConfig) : StrOrArr :=
  let fb := StrOrArr.str (buildPath ++ "/" ++ detected ++ ".wasm.unityweb")
  match manifest with
  | none => fb
  | some c =>
    match c.codeUrl with
    | some (.str s) => if s = "" then fb else .str s
    | some (.arr l) => .arr l
    | none => fb

/-- Resolution of the executable/code asset (lines 195–228): `wasmFiles`
array, else truthy `wasmCodeUrl`, else `codeUrl` when a string, else
`codeUrl` when an array, else the initial value (which is the fallback
whenever none of the branches fired). -/
def resolveCodeUrl (buildPath detected : String)
    (manifest : Option UnityBuildConfig) : StrOrArr :=
  match manifest with
  | none => codeUrlInit buildPath detected none
  | some c =>
    match c.wasmFiles with
    | some files => .arr (files.map (resolveFile buildPath))
    | none =>
      if jsTruthy c.wasmCodeUrl then
        .str (resolveFile buildPath (c.wasmCodeUrl.getD ""))
      else
        match c.codeUrl with
        | some (.str s) => .str (resolveFile buildPath s)
        | some (.arr l) => .arr (l.map (resolveFile buildPath))
        | none => codeUrlInit buildPath detected (some c)

/-- Construction of the resolved config object (lines 239–256).  Note that
`dataUrl`, `frameworkUrl` and `streamingAssetsUrl` are taken from the
manifest with `||` only — no absolute/relative resolution is applied to
them. -/
def buildRuntimeConfig (buildUrl buildFolder detected : String)
    (manifest : Option UnityBuildConfig) : UnityInstanceConfig :=
  let buildPath := buildUrl ++ "/" ++ buildFolder
  { dataUrl := jsOr (manifest.bind (·.dataUrl))
      (buildPath ++ "/" ++ detected ++ ".data.unityweb")
    frameworkUrl := jsOr (manifest.bind (·.frameworkUrl))
      (buildPath ++ "/" ++ detected ++ ".framework.js.unityweb")
    codeUrl := resolveCodeUrl buildPath detected manifest
    streamingAssetsUrl := jsOr (manifest.bind (·.streamingAssetsUrl))
      (buildUrl ++ "/StreamingAssets")
    companyName := jsOr (manifest.bind (·.companyName)) "DefaultCompany"
    productName := jsOr (manifest.bind (·.productName)) detected
    productVersion := jsOr (manifest.bind (·.productVersion)) "0.0.1"
    arguments := (manifest.bind (·.arguments)).getD [] }

/-- The possible outcomes of the `Build.json` fetch (lines 144–155). -/
inductive FetchOutcome where
  | httpOk (cfg : UnityBuildConfig)
  | httpNotOk
  | networkFailure
  | parseFailure
deriving DecidableEq

/-- What `loadUnity` keeps as `buildConfig` after the fetch: the parsed
manifest on an OK response, `null` in every other case (the non-OK branch is
skipped, network and parse errors are swallowed by the empty `catch`). -/
def processManifestFetch : FetchOutcome → Option UnityBuildConfig
  | .httpOk cfg => some cfg
  | .httpNotOk => none
  | .networkFailure => none
  | .parseFailure => none

/-! ## Load-attempt state machine

One load attempt (`loadUnity` plus the `script.onload` / `script.onerror`
handlers) as an event-driven machine.  The manifest fetch never produces an
error transition (its failures are swallowed); `script.onerror` sets the
error state; `script.onload` proceeds to instantiation; the factory promise
resolving sets the ready state, its rejection (or a failed precondition
check, lines 182–191) sets the error state. -/

inductive LoadPhase where
  | fetchingManifest
  | fetchingScript
  | instantiating
  | ready
  | failed
deriving DecidableEq, Repr

inductive LoadEvent where
  | manifestOk
  | manifestHttpError
  | manifestNetworkError
  | manifestParseError
  | scriptError
  | scriptLoaded
  | preconditionFailed
  | factoryResolved
  | factoryRejected
deriving DecidableEq, Repr

/-- The event each fetch outcome raises. -/
def eventOfFetchOutcome : FetchOutcome → LoadEvent
  | .httpOk _ => .manifestOk
  | .httpNotOk => .manifestHttpError
  | .networkFailure => .manifestNetworkError
  | .parseFailure => .manifestParseError

/-- One step of the load attempt.  Events whose handler cannot fire in the
given phase leave the phase unchanged. -/
def loadStep : LoadPhase → LoadEvent → LoadPhase
  | .fetchingManifest, .manifestOk => .fetchingScript
  | .fetchingManifest, .manifestHttpError => .fetchingScript
  | .fetchingManifest, .manifestNetworkError => .fetchingScript
  | .fetchingManifest, .manifestParseError => .fetchingScript
  | .fetchingScript, .scriptError => .failed
  | .fetchingScript, .scriptLoaded => .instantiating
  | .instantiating, .preconditionFailed => .failed
  | .instantiating, .factoryResolved => .ready
  | .instantiating, .factoryRejected => .failed
  | s, _ => s

/-- Run a sequence of events from a phase. -/
def runTrace (s : LoadPhase) (tr : List LoadEvent) : LoadPhase :=
  tr.foldl loadStep s

/-- The progress callback handed to `createUnityInstance`
(lines 262–265): `Math.round(progress * 100)`, modelling the reported
fraction as a rational.  `round x = ⌊x + 1/2⌋`, which is JavaScript's
`Math.round` on these values. -/
def progressPercent (fraction : ℚ) : ℤ :=
  round (fraction * 100)

/-- The state update performed by the progress callback: `setProgress` is
called with a value computed from the current fraction only — the previously
stored percentage is not consulted (no clamping). -/
def onProgressUpdate (_prev : ℤ) (fraction : ℚ) : ℤ :=
  progressPercent fraction

/-! ## Fullscreen / orientation controller -/

/-- The data of `screen.orientation` that `checkOrientation` reads. -/
structure OrientData where
  angle : Nat
  otype : Option String
deriving DecidableEq

/-- The browser environment the controller depends on: platform detection
(`isIOS`), `screen.orientation`, viewport size, the current fullscreen
element, availability of the vendor APIs and whether each call would
throw. -/
structure BrowserEnv where
  ios : Bool
  orientation : Option OrientData
  innerWidth : Nat
  innerHeight : Nat
  systemFullscreenElement : Bool
  requestApiAvailable : Bool
  requestThrows : Bool
  unlockAvailable : Bool
  unlockThrows : Bool
  exitThrows : Bool
deriving DecidableEq

/-- Does `pat` occur as a contiguous run somewhere in `l`? -/
def charsInclude (pat : List Char) : List Char → Bool
  | [] => pat.isEmpty
  | c :: rest => pat.isPrefixOf (c :: rest) || charsInclude pat rest

/-- `str.includes(pat)` of JavaScript. -/
def strIncludes (s pat : String) : Bool :=
  charsInclude pat.data s.data

/-- The landscape test of `checkOrientation` (lines 390–400): angle 90 or
270 or a type containing `"landscape"` when the Screen Orientation API is
present, else viewport width strictly greater than height. -/
def isLandscapeOf (env : BrowserEnv) : Bool :=
  match env.orientation with
  | some o =>
    o.angle == 90 || o.angle == 270 ||
      (match o.otype with
       | some t => strIncludes t "landscape"
       | none => false)
  | none => decide (env.innerHeight < env.innerWidth)

/-- The two boolean state flags of the controller. -/
structure FsState where
  isFullscreen : Bool
  showRotateMessage : Bool
deriving DecidableEq, Repr

/-- State-setter and timer actions emitted by the controller's handlers. -/
inductive UIAction where
  | setFullscreen (b : Bool)
  | setRotateMessage (b : Bool)
  | scheduleHideRotate (ms : Nat)
  | scheduleLockAttempt (ms : Nat)
  | scheduleExitRecheck (ms : Nat)
deriving DecidableEq

/-- The actions `checkOrientation` performs (lines 402–412), given the
`isFullscreen` value captured by its closure.  It schedules no timer. -/
def checkOrientationActions (env : BrowserEnv) (capturedFullscreen : Bool) :
    List UIAction :=
  if !(isLandscapeOf env) && capturedFullscreen then
    if env.ios then [.setFullscreen false, .setRotateMessage false]
    else [.setRotateMessage true]
  else [.setRotateMessage false]

/-- Immediate effect of an action on the flags (timers have none until they
fire). -/
def applyAction (s : FsState) : UIAction → FsState
  | .setFullscreen b => { s with isFullscreen := b }
  | .setRotateMessage b => { s with showRotateMessage := b }
  | .scheduleHideRotate _ => s
  | .scheduleLockAttempt _ => s
  | .scheduleExitRecheck _ => s

def runActions (s : FsState) (l : List UIAction) : FsState :=
  l.foldl applyAction s

/-- `checkOrientation` as a state transformer: the branch condition uses the
closure-captured `isFullscreen`, the setters write to the live state. -/
def checkOrientation (env : BrowserEnv) (captured : Bool) (s : FsState) :
    FsState :=
  runActions s (checkOrientationActions env captured)

/-- The `useEffect` on `isFullscreen` (lines 494–525): while fullscreen it
re-runs `checkOrientation` (with a fresh closure), otherwise it resets the
rotate hint. -/
def fullscreenEffect (env : BrowserEnv) (s : FsState) : FsState :=
  if s.isFullscreen then checkOrientation env s.isFullscreen s
  else { s with showRotateMessage := false }

/-- The render condition of the rotate-hint overlay
(line 700: `showRotateMessage && isFullscreen`). -/
def renderRotateHint (s : FsState) : Bool :=
  s.showRotateMessage && s.isFullscreen

/-- `requestFullscreen` (lines 340–363): returns `true` iff some vendor
request method exists and its call did not throw; a throw is caught
internally and yields `false`. -/
def requestFullscreenCall (env : BrowserEnv) : Bool :=
  env.requestApiAvailable && !env.requestThrows

/-- Result of one `handleFullscreen` invocation: the final flag state, the
timers it scheduled, and whether its outer `catch` handler ran. -/
structure ToggleResult where
  state : FsState
  scheduled : List UIAction
  caughtInOuter : Bool
deriving DecidableEq

/-- `handleFullscreen` (lines 415–492) as a total function.  Inner handlers
(`requestFullscreen`'s own catch, the `try {} catch {}` around
`orientation.unlock`) swallow their exceptions; only a throwing
`exitFullscreen` call (exit path, when a system fullscreen element is
active) reaches the outer catch, which sets the flag to `true` and re-runs
`checkOrientation` with the invocation's captured `isFullscreen`. -/
def handleFullscreen (env : BrowserEnv) (s0 : FsState) : ToggleResult :=
  let captured := s0.isFullscreen
  if !captured then
    if env.ios then
      let s1 := { s0 with isFullscreen := true }
      let s2 := checkOrientation env captured s1
      let s3 := { s2 with showRotateMessage := true }
      ⟨s3, [.scheduleHideRotate 4000], false⟩
    else
      let ok := requestFullscreenCall env
      let s1 := if !ok then { s0 with isFullscreen := true } else s0
      ⟨s1, [.scheduleLockAttempt 300], false⟩
  else
    let s1 := { s0 with showRotateMessage := false }
    if env.ios then
      let s2 := { s1 with isFullscreen := false }
      let s3 := checkOrientation env captured s2
      ⟨s3, [], false⟩
    else
      if env.systemFullscreenElement && env.exitThrows then
        let s2 := { s1 with isFullscreen := true }
        let s3 := checkOrientation env captured s2
        ⟨s3, [], true⟩
      else
        let s2 := { s1 with isFullscreen := false }
        ⟨s2, [.scheduleExitRecheck 200], false⟩

/-- Whether any browser API call raised an exception during the toggle
(whether or not an inner handler swallowed it): on the entry path a present
but throwing request method; on the exit path a present but throwing
`orientation.unlock` or a throwing `exitFullscreen` while a system
fullscreen element is active.  The iOS paths make no such API calls. -/
def toggleExceptionRaised (env : BrowserEnv) (s0 : FsState) : Bool :=
  if !s0.isFullscreen then
    !env.ios && (env.requestApiAvailable && env.requestThrows)
  else
    !env.ios &&
      ((env.unlockAvailable && env.unlockThrows) ||
        (env.systemFullscreenElement && env.exitThrows))

/-- A desktop-like environment in portrait (Screen Orientation API present,
angle 0, portrait type), with a throwing `orientation.unlock`. -/
def portraitEnv : BrowserEnv :=
  { ios := false
    orientation := some { angle := 0, otype := some "portrait-primary" }
    innerWidth := 400
    innerHeight := 800
    systemFullscreenElement := true
    requestApiAvailable := true
    requestThrows := false
    unlockAvailable := true
    unlockThrows := true
    exitThrows := false }

/-- `portraitEnv` with a throwing `exitFullscreen` call. -/
def portraitEnvExitThrows : BrowserEnv :=
  { portraitEnv with unlockThrows := false, exitThrows := true }

/-- `portraitEnv` in landscape (angle 90). -/
def landscapeEnv : BrowserEnv :=
  { portraitEnv with
      orientation := some { angle := 90, otype := some "landscape-primary" } }

/-- The "last non-empty path segment" read directly from the claim's words:
scan the segments and keep the last non-empty one, `none` when every segment
is empty.  Used to check the source's `filter`-then-index computation
against the spec's description. -/
def lastNonEmptySegSpec : List String → Option String
  | [] => none
  | s :: rest =>
    match lastNonEmptySegSpec rest with
    | some r => some r
    | none => if s = "" then none else some s


/-! ## Helper lemmas -/

theorem loadStep_failed (e : LoadEvent) : loadStep .failed e = .failed := by
  cases e <;> rfl

theorem loadStep_ready (e : LoadEvent) : loadStep .ready e = .ready := by
  cases e <;> rfl

theorem runTrace_cons (s : LoadPhase) (e : LoadEvent) (tr : List LoadEvent) :
    runTrace s (e :: tr) = runTrace (loadStep s e) tr := rfl

theorem runTrace_failed (tr : List LoadEvent) :
    runTrace .failed tr = .failed := by
  induction tr with
  | nil => rfl
  | cons e tr ih => rw [runTrace_cons, loadStep_failed]; exact ih

/-- From `instantiating`, reaching `ready` requires a `factoryResolved`
event in the trace. -/
theorem ready_from_instantiating_needs_factory (tr : List LoadEvent) :
    runTrace .instantiating tr = .ready → LoadEvent.factoryResolved ∈ tr := by
  induction tr with
  | nil => intro h; exact absurd h (by decide)
  | cons e tr ih =>
    intro h
    rw [runTrace_cons] at h
    cases e with
    | factoryResolved => exact List.mem_cons_self _ _
    | preconditionFailed =>
      rw [show loadStep .instantiating .preconditionFailed = .failed from rfl,
        runTrace_failed] at h
      exact absurd h (by decide)
    | factoryRejected =>
      rw [show loadStep .instantiating .factoryRejected = .failed from rfl,
        runTrace_failed] at h
      exact absurd h (by decide)
    | manifestOk => exact List.mem_cons_of_mem _ (ih h)
    | manifestHttpError => exact List.mem_cons_of_mem _ (ih h)
    | manifestNetworkError => exact List.mem_cons_of_mem _ (ih h)
    | manifestParseError => exact List.mem_cons_of_mem _ (ih h)
    | scriptError => exact List.mem_cons_of_mem _ (ih h)
    | scriptLoaded => exact List.mem_cons_of_mem _ (ih h)

/-- From `fetchingScript`, reaching `ready` requires both a `scriptLoaded`
and a `factoryResolved` event in the trace. -/
theorem ready_from_script_needs_both (tr : List LoadEvent) :
    runTrace .fetchingScript tr = .ready →
      LoadEvent.scriptLoaded ∈ tr ∧ LoadEvent.factoryResolved ∈ tr := by
  induction tr with
  | nil => intro h; exact absurd h (by decide)
  | cons e tr ih =>
    intro h
    rw [runTrace_cons] at h
    cases e with
    | scriptLoaded =>
      refine ⟨List.mem_cons_self _ _, List.mem_cons_of_mem _ ?_⟩
      exact ready_from_instantiating_needs_factory tr h
    | scriptError =>
      rw [show loadStep .fetchingScript .scriptError = .failed from rfl,
        runTrace_failed] at h
      exact absurd h (by decide)
    | manifestOk =>
      exact ⟨List.mem_cons_of_mem _ (ih h).1, List.mem_cons_of_mem _ (ih h).2⟩
    | manifestHttpError =>
      exact ⟨List.mem_cons_of_mem _ (ih h).1, List.mem_cons_of_mem _ (ih h).2⟩
    | manifestNetworkError =>
      exact ⟨List.mem_cons_of_mem _ (ih h).1, List.mem_cons_of_mem _ (ih h).2⟩
    | manifestParseError =>
      exact ⟨List.mem_cons_of_mem _ (ih h).1, List.mem_cons_of_mem _ (ih h).2⟩
    | preconditionFailed =>
      exact ⟨List.mem_cons_of_mem _ (ih h).1, List.mem_cons_of_mem _ (ih h).2⟩
    | factoryResolved =>
      exact ⟨List.mem_cons_of_mem _ (ih h).1, List.mem_cons_of_mem _ (ih h).2⟩
    | factoryRejected =>
      exact ⟨List.mem_cons_of_mem _ (ih h).1, List.mem_cons_of_mem _ (ih h).2⟩

/-- The source's `filter(Boolean)`-then-last-index computation agrees with
the spec-side "last non-empty segment" scan. -/
theorem lastNonEmptySegSpec_eq_filtered (l : List String) :
    lastNonEmptySegSpec l = (l.filter (fun s => s ≠ "")).getLast? := by
  induction l with
  | nil => rfl
  | cons s rest ih =>
    by_cases hs : s = ""
    · subst hs
      cases h : lastNonEmptySegSpec rest with
      | some r =>
        simp only [lastNonEmptySegSpec, h]
        rw [List.filter_cons, if_neg (by decide), ← ih, h]
      | none =>
        simp only [lastNonEmptySegSpec, h]
        rw [if_pos trivial, List.filter_cons, if_neg (by decide), ← ih, h]
    · cases h : lastNonEmptySegSpec rest with
      | some r =>
        simp only [lastNonEmptySegSpec, h]
        rw [List.filter_cons, if_pos (decide_eq_true hs)]
        cases hf : List.filter (fun t => decide (t ≠ "")) rest with
        | nil =>
          rw [hf] at ih
          rw [h] at ih
          exact absurd ih (by simp)
        | cons b t =>
          rw [List.getLast?_cons_cons, ← hf, ← ih, h]
      | none =>
        simp only [lastNonEmptySegSpec, h]
        have hnil : List.filter (fun t => decide (t ≠ "")) rest = [] :=
          List.getLast?_eq_none_iff.mp (ih.symm.trans h)
        rw [if_neg hs, List.filter_cons, if_pos (decide_eq_true hs), hnil]
        rfl

/-! ## Claim theorems -/

/-- C1 (counterexample): with an explicit build-name prop `"X"` and a
fetched manifest declaring `buildName = "Y"`, the detected build name is
`"Y"`: the manifest-declared name replaces the explicit one, contrary to
the claimed precedence. -/
theorem manifest_buildName_overrides_explicit_prop :
    detectBuildName (some "X") "/game/GODUCK"
      (some { buildName := some "Y" }) = "Y" ∧ ("Y" : String) ≠ "X" :=
  ⟨rfl, by decide⟩

/-- C1 (amended): the detected build name is chosen with precedence
manifest-declared `buildName` (when present and non-empty) > explicit prop
(when present and non-empty) > last non-empty path segment of the base URL
> `"GODUCK"`; in particular a manifest-declared name replaces an explicit
one. -/
theorem buildName_precedence_manifest_first (explicit : Option String)
    (url : String) (m : Option UnityBuildConfig) :
    (∀ c b, m = some c → c.buildName = some b → b ≠ "" →
      detectBuildName explicit url m = b) ∧
    (jsTruthy (m.bind (·.buildName)) = false →
      ∀ e, explicit = some e → e ≠ "" → detectBuildName explicit url m = e) ∧
    (jsTruthy (m.bind (·.buildName)) = false → jsTruthy explicit = false →
      ∀ seg, lastUrlSegment url = some seg →
        detectBuildName explicit url m = seg) ∧
    (jsTruthy (m.bind (·.buildName)) = false → jsTruthy explicit = false →
      lastUrlSegment url = none → detectBuildName explicit url m = "GODUCK") := by
  refine ⟨?_, ?_, ?_, ?_⟩
  · rintro c b rfl hb hbne
    simp [detectBuildName, hb, jsTruthy, hbne]
  · rintro hm e rfl hene
    have hexp : jsTruthy (some e) = true := by simp [jsTruthy, hene]
    cases m with
    | none => simp [detectBuildName, detectBuildNamePre, hexp]
    | some c =>
      have hm' : jsTruthy c.buildName = false := hm
      simp [detectBuildName, detectBuildNamePre, hm', hexp]
  · intro hm hexp seg hseg
    cases m with
    | none => simp [detectBuildName, detectBuildNamePre, hexp, hseg]
    | some c =>
      have hm' : jsTruthy c.buildName = false := hm
      simp [detectBuildName, detectBuildNamePre, hexp, hseg, hm']
  · intro hm hexp hseg
    cases m with
    | none => simp [detectBuildName, detectBuildNamePre, hexp, hseg]
    | some c =>
      have hm' : jsTruthy c.buildName = false := hm
      simp [detectBuildName, detectBuildNamePre, hexp, hseg, hm']

/-- C1 (witness): the amended precedence at concrete inputs. -/
theorem buildName_precedence_witness :
    detectBuildName (some "X") "/game/GODUCK"
      (some { buildName := some "Y" }) = "Y" ∧
    detectBuildName (some "X") "/game/GODUCK" none = "X" ∧
    detectBuildName none "/game/GODUCK" none = "GODUCK" := by
  refine ⟨?_, ?_, ?_⟩
  · exact (buildName_precedence_manifest_first (some "X") "/game/GODUCK"
      (some { buildName := some "Y" })).1 _ "Y" rfl rfl (by decide)
  · exact (buildName_precedence_manifest_first (some "X") "/game/GODUCK"
      none).2.1 rfl "X" rfl (by decide)
  · exact (buildName_precedence_manifest_first none "/game/GODUCK"
      none).2.2.1 rfl rfl "GODUCK" rfl

/-- C2 (counterexample): a relative manifest `dataUrl` is NOT joined to
`{buildUrl}/{buildFolder}/`; it is placed into the resolved config
unchanged. -/
theorem relative_dataUrl_passes_through_unjoined :
    (buildRuntimeConfig "/game/GODUCK" "Build" "GODUCK"
      (some { dataUrl := some "game.data" })).dataUrl = "game.data" ∧
    ("game.data" : String) ≠ "/game/GODUCK/Build/game.data" :=
  ⟨rfl, by decide⟩

/-- C2 (amended): the absolute-vs-relative resolution rule (pass through
values starting with `"http"` or `"/"`, join all others to the build path)
applies only to the code/wasm fields (`wasmFiles` entries, `wasmCodeUrl`,
`codeUrl` as string or array); manifest `dataUrl`, `frameworkUrl` and
`streamingAssetsUrl` values are placed into the config unchanged whether
relative or absolute, with the deterministic defaults used only when the
field is absent or empty. -/
theorem asset_url_resolution_rules (u f d : String) (c : UnityBuildConfig) :
    (∀ files, c.wasmFiles = some files →
      (buildRuntimeConfig u f d (some c)).codeUrl =
        .arr (files.map (resolveFile (u ++ "/" ++ f)))) ∧
    (∀ w, c.wasmFiles = none → c.wasmCodeUrl = some w → w ≠ "" →
      (buildRuntimeConfig u f d (some c)).codeUrl =
        .str (resolveFile (u ++ "/" ++ f) w)) ∧
    (∀ s, c.wasmFiles = none → jsTruthy c.wasmCodeUrl = false →
      c.codeUrl = some (.str s) →
      (buildRuntimeConfig u f d (some c)).codeUrl =
        .str (resolveFile (u ++ "/" ++ f) s)) ∧
    (∀ l, c.wasmFiles = none → jsTruthy c.wasmCodeUrl = false →
      c.codeUrl = some (.arr l) →
      (buildRuntimeConfig u f d (some c)).codeUrl =
        .arr (l.map (resolveFile (u ++ "/" ++ f)))) ∧
    (∀ bp file, (jsStartsWith file "http" || jsStartsWith file "/") = true →
      resolveFile bp file = file) ∧
    (∀ bp file, (jsStartsWith file "http" || jsStartsWith file "/") = false →
      resolveFile bp file = bp ++ "/" ++ file) ∧
    (∀ v, c.dataUrl = some v → v ≠ "" →
      (buildRuntimeConfig u f d (some c)).dataUrl = v) ∧
    (∀ v, c.frameworkUrl = some v → v ≠ "" →
      (buildRuntimeConfig u f d (some c)).frameworkUrl = v) ∧
    (∀ v, c.streamingAssetsUrl = some v → v ≠ "" →
      (buildRuntimeConfig u f d (some c)).streamingAssetsUrl = v) ∧
    (c.dataUrl = none ∨ c.dataUrl = some "" →
      (buildRuntimeConfig u f d (some c)).dataUrl =
        u ++ "/" ++ f ++ "/" ++ d ++ ".data.unityweb") ∧
    (c.frameworkUrl = none ∨ c.frameworkUrl = some "" →
      (buildRuntimeConfig u f d (some c)).frameworkUrl =
        u ++ "/" ++ f ++ "/" ++ d ++ ".framework.js.unityweb") ∧
    (c.streamingAssetsUrl = none ∨ c.streamingAssetsUrl = some "" →
      (buildRuntimeConfig u f d (some c)).streamingAssetsUrl =
        u ++ "/StreamingAssets") := by
  refine ⟨?_, ?_, ?_, ?_, ?_, ?_, ?_, ?_, ?_, ?_, ?_, ?_⟩
  · intro files hw
    simp [buildRuntimeConfig, resolveCodeUrl, hw]
  · intro w hw hwc hne
    simp [buildRuntimeConfig, resolveCodeUrl, hw, hwc, jsTruthy, hne]
  · intro s hw hwc hcu
    simp [buildRuntimeConfig, resolveCodeUrl, hw, hwc, hcu]
  · intro l hw hwc hcu
    simp [buildRuntimeConfig, resolveCodeUrl, hw, hwc, hcu]
  · intro bp file h
    simp [resolveFile, h]
  · intro bp file h
    simp [resolveFile, h]
  · intro v hv hne
    simp [buildRuntimeConfig, jsOr, hv, hne]
  · intro v hv hne
    simp [buildRuntimeConfig, jsOr, hv, hne]
  · intro v hv hne
    simp [buildRuntimeConfig, jsOr, hv, hne]
  · rintro (hv | hv) <;> simp [buildRuntimeConfig, jsOr, hv]
  · rintro (hv | hv) <;> simp [buildRuntimeConfig, jsOr, hv]
  · rintro (hv | hv) <;> simp [buildRuntimeConfig, jsOr, hv]

/-- C2 (witness): the amended rules at concrete inputs — a relative
wasmCodeUrl resolved through the rule, an absolute file passed through,
a relative streamingAssetsUrl placed unchanged, and the default used for
an absent dataUrl. -/
theorem asset_url_resolution_witness :
    (buildRuntimeConfig "/game/GODUCK" "Build" "GODUCK"
      (some { wasmCodeUrl := some "game.wasm" })).codeUrl =
      .str (resolveFile "/game/GODUCK/Build" "game.wasm") ∧
    resolveFile "/game/GODUCK/Build" "/cdn/game.wasm" = "/cdn/game.wasm" ∧
    (buildRuntimeConfig "/game/GODUCK" "Build" "GODUCK"
      (some { streamingAssetsUrl := some "assets" })).streamingAssetsUrl =
      "assets" ∧
    (buildRuntimeConfig "/game/GODUCK" "Build" "GODUCK"
      (some { wasmCodeUrl := some "game.wasm" })).dataUrl =
      "/game/GODUCK" ++ "/" ++ "Build" ++ "/" ++ "GODUCK" ++ ".data.unityweb" := by
  refine ⟨?_, ?_, ?_, ?_⟩
  · exact (asset_url_resolution_rules "/game/GODUCK" "Build" "GODUCK"
      { wasmCodeUrl := some "game.wasm" }).2.1 "game.wasm" rfl rfl (by decide)
  · exact (asset_url_resolution_rules "/game/GODUCK" "Build" "GODUCK"
      { wasmCodeUrl := some "game.wasm" }).2.2.2.2.1 "/game/GODUCK/Build"
      "/cdn/game.wasm" (by decide)
  · exact (asset_url_resolution_rules "/game/GODUCK" "Build" "GODUCK"
      { streamingAssetsUrl := some "assets" }).2.2.2.2.2.2.2.2.1 "assets"
      rfl (by decide)
  · exact (asset_url_resolution_rules "/game/GODUCK" "Build" "GODUCK"
      { wasmCodeUrl := some "game.wasm" }).2.2.2.2.2.2.2.2.2.1 (Or.inl rfl)

/-- C3: the resolved code URL is a total function of the manifest with the
precedence `wasmFiles` array > truthy `wasmCodeUrl` > `codeUrl` string >
`codeUrl` array > fallback `{buildPath}/{detectedBuildName}.wasm.unityweb`;
the multi-file `wasmFiles` array wins regardless of every other field. -/
theorem codeUrl_precedence_exact (bp d : String) (m : Option UnityBuildConfig) :
    (∀ u f dn mf, (buildRuntimeConfig u f dn mf).codeUrl =
      resolveCodeUrl (u ++ "/" ++ f) dn mf) ∧
    (∀ c files, m = some c → c.wasmFiles = some files →
      resolveCodeUrl bp d m = .arr (files.map (resolveFile bp))) ∧
    (∀ c w, m = some c → c.wasmFiles = none → c.wasmCodeUrl = some w → w ≠ "" →
      resolveCodeUrl bp d m = .str (resolveFile bp w)) ∧
    (∀ c s, m = some c → c.wasmFiles = none → jsTruthy c.wasmCodeUrl = false →
      c.codeUrl = some (.str s) →
      resolveCodeUrl bp d m = .str (resolveFile bp s)) ∧
    (∀ c l, m = some c → c.wasmFiles = none → jsTruthy c.wasmCodeUrl = false →
      c.codeUrl = some (.arr l) →
      resolveCodeUrl bp d m = .arr (l.map (resolveFile bp))) ∧
    ((m = none ∨ ∃ c, m = some c ∧ c.wasmFiles = none ∧
        jsTruthy c.wasmCodeUrl = false ∧ c.codeUrl = none) →
      resolveCodeUrl bp d m = .str (bp ++ "/" ++ d ++ ".wasm.unityweb")) := by
  refine ⟨fun u f dn mf => rfl, ?_, ?_, ?_, ?_, ?_⟩
  · rintro c files rfl hw
    simp [resolveCodeUrl, hw]
  · rintro c w rfl hw hwc hne
    simp [resolveCodeUrl, hw, hwc, jsTruthy, hne]
  · rintro c s rfl hw hwc hcu
    simp [resolveCodeUrl, hw, hwc, hcu]
  · rintro c l rfl hw hwc hcu
    simp [resolveCodeUrl, hw, hwc, hcu]
  · rintro (rfl | ⟨c, rfl, hw, hwc, hcu⟩)
    · simp [resolveCodeUrl, codeUrlInit]
    · simp [resolveCodeUrl, codeUrlInit, hw, hwc, hcu]

/-- C3 (witness): `wasmFiles` beats both single-URL fields at a concrete
manifest, each entry resolved by the absolute/relative rule. -/
theorem codeUrl_precedence_witness :
    resolveCodeUrl "/b" "N"
      (some { wasmFiles := some ["a.wasm", "/c/b.wasm"],
              wasmCodeUrl := some "x.wasm",
              codeUrl := some (.str "y.wasm") }) =
      .arr ["/b/a.wasm", "/c/b.wasm"] := by
  have h := (codeUrl_precedence_exact "/b" "N"
    (some { wasmFiles := some ["a.wasm", "/c/b.wasm"],
            wasmCodeUrl := some "x.wasm",
            codeUrl := some (.str "y.wasm") })).2.1 _ ["a.wasm", "/c/b.wasm"] rfl rfl
  exact h.trans (by rfl)

/-- C4: a script-tag load failure moves the load attempt to the error
state, from which the ready state is unreachable; and from the
script-fetch phase, ready is reached only by a trace containing both the
script success event and the factory-resolution event. -/
theorem script_failure_and_ready_conditions :
    loadStep .fetchingScript .scriptError = .failed ∧
    (∀ tr : List LoadEvent, runTrace .failed tr ≠ .ready) ∧
    (∀ tr : List LoadEvent, runTrace .fetchingScript tr = .ready →
      LoadEvent.scriptLoaded ∈ tr ∧ LoadEvent.factoryResolved ∈ tr) := by
  refine ⟨rfl, ?_, ready_from_script_needs_both⟩
  intro tr
  rw [runTrace_failed]
  decide

/-- C4 (witness): the error state stays un-ready on a concrete trace, and
the shortest ready trace contains both required events. -/
theorem script_failure_witness :
    runTrace .failed [LoadEvent.scriptLoaded, LoadEvent.factoryResolved] ≠ .ready ∧
    (LoadEvent.scriptLoaded ∈
        [LoadEvent.scriptLoaded, LoadEvent.factoryResolved] ∧
      LoadEvent.factoryResolved ∈
        [LoadEvent.scriptLoaded, LoadEvent.factoryResolved]) :=
  ⟨script_failure_and_ready_conditions.2.1 _,
   script_failure_and_ready_conditions.2.2 _ rfl⟩

/-- C5: every failing manifest-fetch outcome (non-OK response, network
failure, parse failure) leaves the load exactly as if no manifest existed —
same detected build name, same resolved config — and proceeds to the
script phase rather than the error state. -/
theorem manifest_failure_behaves_as_no_manifest (o : FetchOutcome)
    (h : ∀ c, o ≠ FetchOutcome.httpOk c) :
    processManifestFetch o = none ∧
    (∀ e u, detectBuildName e u (processManifestFetch o) =
      detectBuildName e u none) ∧
    (∀ u f d, buildRuntimeConfig u f d (processManifestFetch o) =
      buildRuntimeConfig u f d none) ∧
    loadStep .fetchingManifest (eventOfFetchOutcome o) = .fetchingScript ∧
    loadStep .fetchingManifest (eventOfFetchOutcome o) ≠ .failed := by
  cases o with
  | httpOk c => exact absurd rfl (h c)
  | httpNotOk => exact ⟨rfl, fun e u => rfl, fun u f d => rfl, rfl, by decide⟩
  | networkFailure => exact ⟨rfl, fun e u => rfl, fun u f d => rfl, rfl, by decide⟩
  | parseFailure => exact ⟨rfl, fun e u => rfl, fun u f d => rfl, rfl, by decide⟩

/-- C5 (witness): a non-OK response at concrete inputs. -/
theorem manifest_failure_witness :
    processManifestFetch .httpNotOk = none ∧
    buildRuntimeConfig "/game/GODUCK" "Build" "GODUCK"
        (processManifestFetch .httpNotOk) =
      buildRuntimeConfig "/game/GODUCK" "Build" "GODUCK" none ∧
    loadStep .fetchingManifest (eventOfFetchOutcome .httpNotOk) =
      .fetchingScript := by
  have h := manifest_failure_behaves_as_no_manifest .httpNotOk
    (fun c hc => FetchOutcome.noConfusion hc)
  exact ⟨h.1, h.2.2.1 "/game/GODUCK" "Build" "GODUCK", h.2.2.2.1⟩

/-- C6: the stored progress value is `round(fraction * 100)` — an integer
in `[0, 100]` for fractions in `[0, 1]` — computed from the current
fraction only (no clamping against the previous value), so a sufficiently
decreasing fraction produces a decreasing displayed percentage. -/
theorem progress_is_rounded_unclamped (f : ℚ) (h0 : 0 ≤ f) (h1 : f ≤ 1) :
    0 ≤ progressPercent f ∧ progressPercent f ≤ 100 ∧
    (∀ prev : ℤ, onProgressUpdate prev f = progressPercent f) ∧
    (∃ f1 f2 : ℚ, 0 ≤ f2 ∧ f2 < f1 ∧ f1 ≤ 1 ∧
      progressPercent f2 < progressPercent f1) := by
  have e1 : progressPercent (1/2) = 50 := by
    rw [progressPercent, round_eq]
    apply Int.floor_eq_iff.mpr
    constructor <;> norm_num
  have e2 : progressPercent (3/10) = 30 := by
    rw [progressPercent, round_eq]
    apply Int.floor_eq_iff.mpr
    constructor <;> norm_num
  refine ⟨?_, ?_, fun prev => rfl, ⟨1/2, 3/10, by norm_num, by norm_num,
    by norm_num, by rw [e1, e2]; norm_num⟩⟩
  · rw [progressPercent, round_eq]
    apply Int.floor_nonneg.mpr
    linarith
  · rw [progressPercent, round_eq]
    have h2 : f * 100 + 1/2 ≤ (201/2 : ℚ) := by linarith
    have h3 : ⌊(201/2 : ℚ)⌋ = 100 := by
      apply Int.floor_eq_iff.mpr
      constructor <;> norm_num
    calc ⌊f * 100 + 1/2⌋ ≤ ⌊(201/2 : ℚ)⌋ := Int.floor_mono h2
    _ = 100 := h3

/-- C6 (witness): the bounds at the concrete fraction 1/2. -/
theorem progress_rounding_witness :
    0 ≤ progressPercent (1/2) ∧ progressPercent (1/2) ≤ 100 :=
  ⟨(progress_is_rounded_unclamped (1/2) (by norm_num) (by norm_num)).1,
   (progress_is_rounded_unclamped (1/2) (by norm_num) (by norm_num)).2.1⟩

/-- C7: while the fullscreen flag is set and the computed orientation is
not landscape, the orientation check exits fullscreen and hides the hint on
iOS, and on other platforms shows the rotate hint; in landscape the hint is
hidden; and the check never schedules an auto-hide timer. -/
theorem orientation_check_cases (env : BrowserEnv) (s : FsState)
    (hfs : s.isFullscreen = true) :
    (isLandscapeOf env = false → env.ios = true →
      checkOrientation env s.isFullscreen s =
        { isFullscreen := false, showRotateMessage := false }) ∧
    (isLandscapeOf env = false → env.ios = false →
      checkOrientation env s.isFullscreen s =
        { s with showRotateMessage := true }) ∧
    (isLandscapeOf env = true →
      (checkOrientation env s.isFullscreen s).showRotateMessage = false) ∧
    (∀ ms, UIAction.scheduleHideRotate ms ∉
      checkOrientationActions env s.isFullscreen) := by
  refine ⟨?_, ?_, ?_, ?_⟩
  · intro hl hi
    simp [checkOrientation, checkOrientationActions, runActions, applyAction,
      hfs, hl, hi]
  · intro hl hi
    simp [checkOrientation, checkOrientationActions, runActions, applyAction,
      hfs, hl, hi]
  · intro hl
    simp [checkOrientation, checkOrientationActions, runActions, applyAction,
      hfs, hl]
  · intro ms
    by_cases hl : isLandscapeOf env <;> by_cases hi : env.ios <;>
      simp [checkOrientationActions, hfs, hl, hi]

/-- C7 (witness): concrete portrait and landscape environments. -/
theorem orientation_check_witness :
    checkOrientation portraitEnv true ⟨true, false⟩ =
      { isFullscreen := true, showRotateMessage := true } ∧
    (checkOrientation landscapeEnv true ⟨true, true⟩).showRotateMessage
      = false := by
  constructor
  · exact (orientation_check_cases portraitEnv ⟨true, false⟩ rfl).2.1 rfl rfl
  · exact (orientation_check_cases landscapeEnv ⟨true, true⟩ rfl).2.2.1 rfl

/-- C8 (counterexample): with a throwing `orientation.unlock` on the exit
path, an exception is raised inside the toggle but the outer catch handler
never runs — the exit completes normally and the fullscreen flag ends
`false`, not `true` as the claim requires. -/
theorem unlock_exception_does_not_reach_catch :
    toggleExceptionRaised portraitEnv ⟨true, true⟩ = true ∧
    (handleFullscreen portraitEnv ⟨true, true⟩).caughtInOuter = false ∧
    (handleFullscreen portraitEnv ⟨true, true⟩).state.isFullscreen = false :=
  ⟨rfl, rfl, rfl⟩

/-- C8 (amended): only an exception escaping the inner handlers — a
throwing `exitFullscreen` call on the exit path while a system fullscreen
element is active — reaches the toggle's outer catch, which then sets the
fullscreen flag to `true` and re-runs the orientation check; exceptions in
the request and unlock calls are swallowed by inner handlers; no exception
ever propagates out of the toggle (the model is a total function). -/
theorem toggle_outer_catch_exact (env : BrowserEnv) (s0 : FsState) :
    (s0.isFullscreen = true → env.ios = false →
      env.systemFullscreenElement = true → env.exitThrows = true →
      (handleFullscreen env s0).caughtInOuter = true ∧
      (handleFullscreen env s0).state =
        checkOrientation env true
          { isFullscreen := true, showRotateMessage := false }) ∧
    ((handleFullscreen env s0).caughtInOuter = true →
      s0.isFullscreen = true ∧ env.ios = false ∧
      env.systemFullscreenElement = true ∧ env.exitThrows = true) := by
  constructor
  · intro hf hi hs he
    constructor
    · simp [handleFullscreen, hf, hi, hs, he]
    · simp [handleFullscreen, hf, hi, hs, he]
  · intro hc
    by_cases hf : s0.isFullscreen = true <;> by_cases hi : env.ios = true <;>
      by_cases hs : env.systemFullscreenElement = true <;>
      by_cases he : env.exitThrows = true <;>
      simp [handleFullscreen, hf, hi, hs, he, Bool.not_eq_true] at hc ⊢

/-- C8 (witness): a throwing exit call at a concrete environment triggers
the catch handler. -/
theorem toggle_outer_catch_witness :
    (handleFullscreen portraitEnvExitThrows ⟨true, true⟩).caughtInOuter
      = true :=
  ((toggle_outer_catch_exact portraitEnvExitThrows ⟨true, true⟩).1
    rfl rfl rfl rfl).1

/-- C9: the rotate hint is never visible without the fullscreen flag: the
`isFullscreen` effect resets the hint whenever the flag is false, and the
overlay render condition requires both flags. -/
theorem rotate_hint_never_without_fullscreen :
    (∀ (env : BrowserEnv) (s : FsState), s.isFullscreen = false →
      (fullscreenEffect env s).showRotateMessage = false) ∧
    (∀ s : FsState, renderRotateHint s = true →
      s.showRotateMessage = true ∧ s.isFullscreen = true) := by
  constructor
  · intro env s h
    simp [fullscreenEffect, h]
  · intro s h
    simpa [renderRotateHint] using h

/-- C9 (witness): the invariant at concrete states. -/
theorem rotate_hint_witness :
    (fullscreenEffect portraitEnv ⟨false, true⟩).showRotateMessage = false ∧
    ((true : Bool) = true ∧ (true : Bool) = true) :=
  ⟨rotate_hint_never_without_fullscreen.1 portraitEnv ⟨false, true⟩ rfl,
   rotate_hint_never_without_fullscreen.2 ⟨true, true⟩ rfl⟩

/-- C10: when the explicit build-name prop is absent or empty, detection
falls through to the last non-empty path segment of the base URL (empty
segments from leading, trailing or doubled slashes are ignored), and to
`"GODUCK"` when no non-empty segment exists. -/
theorem detect_falls_back_to_url_segment (explicit : Option String)
    (url : String) (h : explicit = none ∨ explicit = some "") :
    detectBuildNamePre explicit url =
      (lastNonEmptySegSpec (jsSplit '/' url)).getD "GODUCK" ∧
    (lastNonEmptySegSpec (jsSplit '/' url) = none →
      detectBuildNamePre explicit url = "GODUCK") := by
  have hexp : jsTruthy explicit = false := by
    rcases h with rfl | rfl <;> rfl
  constructor
  · unfold detectBuildNamePre
    rw [hexp, if_neg (by simp), lastNonEmptySegSpec_eq_filtered]
    rfl
  · intro hn
    unfold detectBuildNamePre
    rw [hexp, if_neg (by simp)]
    rw [lastNonEmptySegSpec_eq_filtered] at hn
    unfold lastUrlSegment
    rw [hn]
    rfl

/-- C10 (witness): concrete URLs with doubled and trailing slashes, and
with no non-empty segment. -/
theorem detect_falls_back_witness :
    detectBuildNamePre none "/assets//MyGame/" = "MyGame" ∧
    detectBuildNamePre (some "") "//" = "GODUCK" := by
  constructor
  · exact ((detect_falls_back_to_url_segment none "/assets//MyGame/"
      (Or.inl rfl)).1).trans (by rfl)
  · exact (detect_falls_back_to_url_segment (some "") "//"
      (Or.inr rfl)).2 (by rfl)

end GoduckLoader
